import Mathlib

/-!
Verification of the matrix-client backend (Rust/Tauri, documented in the
repository's backend reference) against its natural-language specification.

The embedding translates the backend commands into pure Lean functions.
External effects (the Matrix SDK, the homeserver, the filesystem) are made
explicit: server responses and remote-call outcomes are inputs, the
application state (`MatrixState`) and the filesystem are threaded through
as values, and fallible commands return `Except String _` mirroring the
Rust `Result<_, String>`.
-/

namespace MatrixClient

/-- Message sub-kinds handled by `get_messages` (`MessageType` in the Rust
match: `Text`, `Notice`, `Emote`, and a catch-all `_` for every other
sub-kind such as images or files). -/
inductive MessageType
  | text (body : String)
  | notice (body : String)
  | emote (body : String)
  | unsupported
deriving DecidableEq

/-- Outcome of deserializing a raw event payload inside `get_messages`.
The Rust code only produces a message when the nested `if let` chain
succeeds: deserialization is `Ok`, the event is a room message, and it is
an `Original` (non-redacted) event.  Everything else falls through the
`if let`s with no `else` and is silently skipped. -/
inductive EventPayload
  | originalRoomMessage (sender : String) (msgtype : MessageType)
  | nonMessage
deriving DecidableEq

/-- `TimelineEventKind` of the Matrix SDK as matched by `get_messages`:
decrypted (sender taken from `encryption_info`), plaintext (sender taken
from the event itself), or undecryptable. -/
inductive TimelineEventKind
  | decrypted (encryption_sender : String) (payload : EventPayload)
  | plainText (payload : EventPayload)
  | unableToDecrypt
deriving DecidableEq

/-- A raw timeline entry from the server: a classification plus the
optional server-assigned timestamp (`timeline_event.timestamp` is an
`Option`, unwrapped with `unwrap_or(0)` in every branch). -/
structure TimelineEvent where
  kind : TimelineEventKind
  timestamp : Option Nat
deriving DecidableEq

/-- The flat `Message` struct returned to the frontend. -/
structure Message where
  sender : String
  body : String
  timestamp : Nat
deriving DecidableEq

/-- The SDK's `room.messages(...)` response as consumed by `get_messages`:
the raw batch `chunk` (newest first) and the continuation token
`messages_response.end` (`end` is a Lean keyword, hence `endToken`). -/
structure RoomMessagesResponse where
  chunk : List TimelineEvent
  endToken : Option String
deriving DecidableEq

/-- `MessagesResponse` returned by the `get_messages` command. -/
structure MessagesResponse where
  messages : List Message
  has_more : Bool
  next_token : Option String
deriving DecidableEq

/-- The body computed by the `msgtype` match in both the decrypted and the
plaintext arm: text and notice bodies pass through, emote bodies get the
`"* "` marker, anything else hits the `_ => continue` arm (`none`). -/
def bodyOfMsgtype : MessageType → Option String
  | MessageType.text t => some t
  | MessageType.notice n => some n
  | MessageType.emote e => some ("* " ++ e)
  | MessageType.unsupported => none

/-- `timeline_event.timestamp.map(...).unwrap_or(0)`. -/
def timestampOrZero (e : TimelineEvent) : Nat := e.timestamp.getD 0

/-- One iteration of the `for timeline_event in messages_response.chunk`
loop of `get_messages`: `some m` when the loop pushes `m` onto `result`,
`none` when the entry is skipped. -/
def processEvent (e : TimelineEvent) : Option Message :=
  match e.kind with
  | TimelineEventKind.decrypted encryption_sender payload =>
    match payload with
    | EventPayload.originalRoomMessage _ msgtype =>
      match bodyOfMsgtype msgtype with
      | some body =>
        some { sender := encryption_sender, body := body, timestamp := timestampOrZero e }
      | none => none
    | EventPayload.nonMessage => none
  | TimelineEventKind.plainText payload =>
    match payload with
    | EventPayload.originalRoomMessage sender msgtype =>
      match bodyOfMsgtype msgtype with
      | some body =>
        some { sender := sender, body := body, timestamp := timestampOrZero e }
      | none => none
    | EventPayload.nonMessage => none
  | TimelineEventKind.unableToDecrypt =>
    some { sender := "[Encrypted]", body := "🔒 Waiting for encryption keys...",
           timestamp := timestampOrZero e }

/-- The response assembly of `get_messages` (rooms.rs) applied to the
fetched batch: push the mapped messages in chunk order, `result.reverse()`,
`next_token = messages_response.end`, and
`has_more = next_token.is_some() && messages_response.chunk.len() > 0`. -/
def get_messages (resp : RoomMessagesResponse) : MessagesResponse :=
  let result := (resp.chunk.filterMap processEvent).reverse
  let next_token := resp.endToken
  let has_more := next_token.isSome && decide (resp.chunk.length > 0)
  { messages := result, has_more := has_more, next_token := next_token }

/-- Pagination direction of `MessagesOptions`. -/
inductive Direction
  | forward
  | backward
deriving DecidableEq

/-- The SDK's `MessagesOptions` as far as `get_messages` configures it.
`limit = none` means the SDK default page size; this code never sets it. -/
structure MessagesOptions where
  dir : Direction
  from_token : Option String
  limit : Option Nat
deriving DecidableEq

/-- `MessagesOptions::backward()`: backward direction, no start token, the
limit left at the SDK default. -/
def MessagesOptions.backward : MessagesOptions :=
  { dir := Direction.backward, from_token := none, limit := none }

/-- The options construction in `get_messages`:
`if let Some(token) = from_token { MessagesOptions::backward().from(Some(token)) }
else { MessagesOptions::backward() }`.  The command's `_limit: u32`
parameter is not consulted anywhere in the body. -/
def configure_options ( _limit : Nat) (from_token : Option String) : MessagesOptions :=
  match from_token with
  | some token => { MessagesOptions.backward with from_token := some token }
  | none => MessagesOptions.backward

/-- Classifier used to state count preservation: `true` exactly when the
`get_messages` loop emits a message for the entry. -/
def keepsEntry (e : TimelineEvent) : Bool :=
  match e.kind with
  | TimelineEventKind.decrypted _ (EventPayload.originalRoomMessage _ msgtype) =>
    (bodyOfMsgtype msgtype).isSome
  | TimelineEventKind.decrypted _ EventPayload.nonMessage => false
  | TimelineEventKind.plainText (EventPayload.originalRoomMessage _ msgtype) =>
    (bodyOfMsgtype msgtype).isSome
  | TimelineEventKind.plainText EventPayload.nonMessage => false
  | TimelineEventKind.unableToDecrypt => true

/-- `true` exactly when the entry is an original room message whose
message sub-kind falls into the `_ => continue` arm. -/
def isUnsupportedSubkind (e : TimelineEvent) : Bool :=
  match e.kind with
  | TimelineEventKind.decrypted _ (EventPayload.originalRoomMessage _ MessageType.unsupported) =>
    true
  | TimelineEventKind.plainText (EventPayload.originalRoomMessage _ MessageType.unsupported) =>
    true
  | _ => false

/-- The connection handle held in `MatrixState.client` once built: the
homeserver it points at and the sqlite store directory it is scoped to. -/
structure Client where
  homeserver : String
  session_dir : String
deriving DecidableEq

/-- `MatrixState` (state.rs): the optional client, the logged-in user id,
the pagination token map, the application data directory, and the active
verification flow id. -/
structure MatrixState where
  client : Option Client
  user_id : Option String
  pagination_tokens : List (String × String)
  data_dir : String
  verification_flow_id : Option String
deriving DecidableEq

/-- The filesystem as the set of existing session directories. -/
structure FileSystem where
  dirs : List String
deriving DecidableEq

/-- `PathBuf::join` restricted to the single level used here. -/
def pathJoin (base child : String) : String := base ++ "/" ++ child

/-- ASCII whitespace, standing in for Rust's `char::is_whitespace`. -/
def isWhitespaceChar (c : Char) : Bool :=
  c = ' ' || c = '\t' || c = '\n' || c = '\r'

/-- Rust's `str::trim`: strip leading and trailing whitespace. -/
def trim (s : String) : String :=
  String.mk (((s.data.dropWhile isWhitespaceChar).reverse.dropWhile isWhitespaceChar).reverse)

/-- Rust's `str::starts_with` for string patterns. -/
def starts_with (s pat : String) : Bool :=
  decide (s.data.take pat.data.length = pat.data)

/-- Rust's `str::is_empty`. -/
def is_empty (s : String) : Bool := decide (s = "")

/-- `sanitize_user_id` (auth.rs): `replace("@", "")` then `replace(":", "_")`,
`replace("/", "_")` and `replace("\\", "_")`.  All four patterns are single
characters, so the replacement chain acts character-wise: `@` is removed;
`:`, `/` and `\` each become `_`; everything else passes through. -/
def sanitize_user_id (user_id : String) : String :=
  String.mk (user_id.data.filterMap (fun c =>
    if c = '@' then none
    else if c = ':' then some '_'
    else if c = '/' then some '_'
    else if c = '\\' then some '_'
    else some c))

/-- `LoginResponse` returned by `matrix_login`. -/
structure LoginResponse where
  success : Bool
  user_id : String
  device_id : String
  message : String
deriving DecidableEq

/-- Outcomes of the external steps `matrix_login` performs, in order:
`fs::remove_dir_all`, `fs::create_dir_all`, `Client::builder().build()`,
`login_username(...)`, and the initial `sync_once`.  The homeserver's
login response carries the user id and device id installed on success. -/
structure LoginEnv where
  remove_dir_ok : Bool
  create_dir_ok : Bool
  connect_ok : Bool
  login_ok : Bool
  response_user_id : String
  response_device_id : String
  sync_ok : Bool
deriving DecidableEq

/-- `matrix_login` (auth.rs): validate inputs, prepare the per-user session
directory (remove pre-existing data, create fresh), build the client,
authenticate, run the initial sync, and only then install the client and
user id into the state.  Every fallible step uses `?`: its error is
returned as-is, with no cleanup of the directory created earlier. -/
def matrix_login (st : MatrixState) (fs : FileSystem)
    (homeserver username password : String) (env : LoginEnv) :
    (MatrixState × FileSystem) × Except String LoginResponse :=
  if is_empty (trim homeserver) || is_empty (trim username) || is_empty password then
    ((st, fs), Except.error "All fields are required")
  else if !starts_with homeserver "http://" && !starts_with homeserver "https://" then
    ((st, fs), Except.error "Homeserver URL must start with http:// or https://")
  else
    let session_dir := pathJoin st.data_dir (sanitize_user_id username)
    if decide (session_dir ∈ fs.dirs) && !env.remove_dir_ok then
      ((st, fs), Except.error "Failed to clear session directory")
    else
      let fs1 : FileSystem := { dirs := fs.dirs.filter (fun d => decide (d ≠ session_dir)) }
      if !env.create_dir_ok then
        ((st, fs1), Except.error "Failed to create session directory")
      else
        let fs2 : FileSystem := { dirs := session_dir :: fs1.dirs }
        if !env.connect_ok then
          ((st, fs2), Except.error "Failed to connect: transport")
        else if !env.login_ok then
          ((st, fs2), Except.error "Login failed: remote rejected")
        else if !env.sync_ok then
          ((st, fs2), Except.error "Initial sync failed: transport")
        else
          let client : Client := { homeserver := trim homeserver, session_dir := session_dir }
          let st2 := { st with client := some client, user_id := some env.response_user_id }
          ((st2, fs2),
            Except.ok
              { success := true, user_id := env.response_user_id,
                device_id := env.response_device_id,
                message := "Login successful - encryption enabled" })

/-- Outcome of the remote `client.logout()` call. -/
structure LogoutEnv where
  remote_logout_ok : Bool
deriving DecidableEq

/-- `logout` (auth.rs), steps in source order: (1) if a client is present,
`client.logout().await?` — a remote failure propagates here, before any
local step; (2) clear client, user id and verification flow id; (3) read
`state.user_id` again (now already cleared) and delete that user's session
directory if a user id is present. -/
def logout (st : MatrixState) (fs : FileSystem) (env : LogoutEnv) :
    (MatrixState × FileSystem) × Except String String :=
  let remote : Except String Unit :=
    match st.client with
    | some _ =>
      if env.remote_logout_ok then Except.ok () else Except.error "Logout failed: transport"
    | none => Except.ok ()
  match remote with
  | Except.error e => ((st, fs), Except.error e)
  | Except.ok _ =>
    let st2 := { st with client := none, user_id := none, verification_flow_id := none }
    match st2.user_id with
    | some uid =>
      let session_dir := pathJoin st2.data_dir (sanitize_user_id uid)
      ((st2, { dirs := fs.dirs.filter (fun d => decide (d ≠ session_dir)) }),
        Except.ok "Logged out successfully")
    | none => ((st2, fs), Except.ok "Logged out successfully")

/-- Outcomes of the external steps of `cancel_verification`: whether
`get_verification_request` finds the flow, and whether the remote
`verification.cancel()` succeeds. -/
structure CancelEnv where
  request_found : Bool
  remote_cancel_ok : Bool
deriving DecidableEq

/-- `cancel_verification` (verification.rs): client and flow id are read
with `ok_or(...)?`, the verification request is looked up, then
`verification.cancel().await?` — only after that succeeds is
`verification_flow_id` set to `None`. -/
def cancel_verification (st : MatrixState) (env : CancelEnv) :
    MatrixState × Except String String :=
  match st.client with
  | none => (st, Except.error "Not logged in")
  | some _ =>
    match st.verification_flow_id with
    | none => (st, Except.error "No active verification")
    | some _ =>
      if !env.request_found then
        (st, Except.error "Verification not found")
      else if !env.remote_cancel_ok then
        (st, Except.error "Failed to cancel: transport")
      else
        ({ st with verification_flow_id := none }, Except.ok "Verification cancelled")

/- ------------------------------------------------------------------ -/
/- Helper lemmas                                                       -/
/- ------------------------------------------------------------------ -/

theorem processEvent_timestamp (e : TimelineEvent) (m : Message)
    (h : processEvent e = some m) : m.timestamp = timestampOrZero e := by
  rcases e with ⟨kind, ts⟩
  cases kind with
  | decrypted s p =>
    cases p with
    | originalRoomMessage s2 mt =>
      cases mt <;> simp [processEvent, bodyOfMsgtype] at h <;> subst h <;> rfl
    | nonMessage => simp [processEvent] at h
  | plainText p =>
    cases p with
    | originalRoomMessage s2 mt =>
      cases mt <;> simp [processEvent, bodyOfMsgtype] at h <;> subst h <;> rfl
    | nonMessage => simp [processEvent] at h
  | unableToDecrypt =>
    simp [processEvent] at h
    subst h
    rfl

theorem processEvent_isSome (e : TimelineEvent) :
    (processEvent e).isSome = keepsEntry e := by
  rcases e with ⟨kind, ts⟩
  cases kind with
  | decrypted s p =>
    cases p with
    | originalRoomMessage s2 mt => cases mt <;> rfl
    | nonMessage => rfl
  | plainText p =>
    cases p with
    | originalRoomMessage s2 mt => cases mt <;> rfl
    | nonMessage => rfl
  | unableToDecrypt => rfl

theorem length_filterMap_processEvent (l : List TimelineEvent) :
    (l.filterMap processEvent).length = (l.filter keepsEntry).length := by
  induction l with
  | nil => rfl
  | cons e l ih =>
    have he := processEvent_isSome e
    cases h : processEvent e with
    | none =>
      rw [h] at he
      simp [List.filterMap_cons, h, List.filter_cons, ← he, ih]
    | some m =>
      rw [h] at he
      simp [List.filterMap_cons, h, List.filter_cons, ← he, ih]

theorem filterMap_timestamps_sublist (l : List TimelineEvent) :
    List.Sublist ((l.filterMap processEvent).map Message.timestamp)
      (l.map timestampOrZero) := by
  induction l with
  | nil => simp
  | cons e l ih =>
    cases h : processEvent e with
    | none =>
      rw [List.filterMap_cons, h, List.map_cons]
      exact ih.cons _
    | some m =>
      rw [List.filterMap_cons, h, List.map_cons, List.map_cons,
        processEvent_timestamp e m h]
      exact ih.cons₂ _

theorem mem_get_messages (resp : RoomMessagesResponse) (m : Message)
    (h : m ∈ (get_messages resp).messages) :
    ∃ e ∈ resp.chunk, processEvent e = some m := by
  have h2 : m ∈ resp.chunk.filterMap processEvent := by
    simpa [get_messages] using h
  rcases List.mem_filterMap.mp h2 with ⟨e, he, hpe⟩
  exact ⟨e, he, hpe⟩

/- ------------------------------------------------------------------ -/
/- Claim theorems                                                      -/
/- ------------------------------------------------------------------ -/

/-- Claim C1: a successful `get_messages` call returns the server's
continuation token unchanged, and `has_more` is true exactly when that
token is present and the raw batch is non-empty; in particular an absent
token, or a present token with an empty batch, gives `has_more = false`. -/
theorem get_messages_has_more_iff (resp : RoomMessagesResponse) :
    (get_messages resp).next_token = resp.endToken
    ∧ ((get_messages resp).has_more = true ↔
        (resp.endToken.isSome = true ∧ resp.chunk ≠ [])) := by
  refine ⟨rfl, ?_⟩
  simp [get_messages, List.length_pos]

/-- Claim C8: the msgtype mapping of `get_messages`, in both the decrypted
and the plaintext arm: text and notice bodies pass through unchanged,
emote bodies get the `"* "` marker, any other sub-kind is skipped (and a
batch containing only such entries still yields a successful, empty
page). -/
theorem get_messages_msgtype_mapping (enc s b : String) (ts : Option Nat) :
    processEvent ⟨TimelineEventKind.decrypted enc (EventPayload.originalRoomMessage s (MessageType.text b)), ts⟩ = some ⟨enc, b, ts.getD 0⟩
    ∧ processEvent ⟨TimelineEventKind.decrypted enc (EventPayload.originalRoomMessage s (MessageType.notice b)), ts⟩ = some ⟨enc, b, ts.getD 0⟩
    ∧ processEvent ⟨TimelineEventKind.decrypted enc (EventPayload.originalRoomMessage s (MessageType.emote b)), ts⟩ = some ⟨enc, "* " ++ b, ts.getD 0⟩
    ∧ processEvent ⟨TimelineEventKind.decrypted enc (EventPayload.originalRoomMessage s MessageType.unsupported), ts⟩ = none
    ∧ processEvent ⟨TimelineEventKind.plainText (EventPayload.originalRoomMessage s (MessageType.text b)), ts⟩ = some ⟨s, b, ts.getD 0⟩
    ∧ processEvent ⟨TimelineEventKind.plainText (EventPayload.originalRoomMessage s (MessageType.notice b)), ts⟩ = some ⟨s, b, ts.getD 0⟩
    ∧ processEvent ⟨TimelineEventKind.plainText (EventPayload.originalRoomMessage s (MessageType.emote b)), ts⟩ = some ⟨s, "* " ++ b, ts.getD 0⟩
    ∧ processEvent ⟨TimelineEventKind.plainText (EventPayload.originalRoomMessage s MessageType.unsupported), ts⟩ = none
    ∧ get_messages ⟨[⟨TimelineEventKind.plainText (EventPayload.originalRoomMessage s MessageType.unsupported), ts⟩], none⟩ = ⟨[], false, none⟩ := by
  refine ⟨rfl, rfl, rfl, rfl, rfl, rfl, rfl, rfl, ?_⟩
  simp [get_messages, processEvent, bodyOfMsgtype]

/-- Claim C10: an entry with no server-assigned timestamp is normalized
with timestamp 0 in every classification branch (decrypted, plaintext,
undecryptable) rather than skipped, and such a zero-timestamp message
appears in the returned page. -/
theorem get_messages_missing_timestamp (enc s b : String) :
    processEvent ⟨TimelineEventKind.decrypted enc (EventPayload.originalRoomMessage s (MessageType.text b)), none⟩ = some ⟨enc, b, 0⟩
    ∧ processEvent ⟨TimelineEventKind.decrypted enc (EventPayload.originalRoomMessage s (MessageType.notice b)), none⟩ = some ⟨enc, b, 0⟩
    ∧ processEvent ⟨TimelineEventKind.decrypted enc (EventPayload.originalRoomMessage s (MessageType.emote b)), none⟩ = some ⟨enc, "* " ++ b, 0⟩
    ∧ processEvent ⟨TimelineEventKind.plainText (EventPayload.originalRoomMessage s (MessageType.text b)), none⟩ = some ⟨s, b, 0⟩
    ∧ processEvent ⟨TimelineEventKind.plainText (EventPayload.originalRoomMessage s (MessageType.notice b)), none⟩ = some ⟨s, b, 0⟩
    ∧ processEvent ⟨TimelineEventKind.plainText (EventPayload.originalRoomMessage s (MessageType.emote b)), none⟩ = some ⟨s, "* " ++ b, 0⟩
    ∧ processEvent ⟨TimelineEventKind.unableToDecrypt, none⟩ = some ⟨"[Encrypted]", "🔒 Waiting for encryption keys...", 0⟩
    ∧ (get_messages ⟨[⟨TimelineEventKind.unableToDecrypt, none⟩], none⟩).messages = [⟨"[Encrypted]", "🔒 Waiting for encryption keys...", 0⟩] := by
  exact ⟨rfl, rfl, rfl, rfl, rfl, rfl, rfl, rfl⟩

/-- Claim C2: the returned page is the reversal of the mapped newest-first
raw batch; when the raw batch is newest-first (effective timestamps
non-increasing) the returned messages are in non-decreasing timestamp
order; and when a cursor-chained older page's raw entries are all
timestamp-below the newer page's (what backward pagination from the
newer page's end token provides), every message of the older page — in
particular its newest — is timestamp-below every message of the newer
page — in particular its oldest. -/
theorem get_messages_ordered (resp respNewer respOlder : RoomMessagesResponse)
    (hsorted : (resp.chunk.map timestampOrZero).Pairwise (fun a b => b ≤ a))
    (hchain : ∀ e ∈ respOlder.chunk, ∀ e2 ∈ respNewer.chunk,
      timestampOrZero e ≤ timestampOrZero e2) :
    (get_messages resp).messages = (resp.chunk.filterMap processEvent).reverse
    ∧ (get_messages resp).messages.Pairwise (fun a b => a.timestamp ≤ b.timestamp)
    ∧ ∀ m ∈ (get_messages respOlder).messages, ∀ m2 ∈ (get_messages respNewer).messages,
        m.timestamp ≤ m2.timestamp := by
  refine ⟨rfl, ?_, ?_⟩
  · have h2 := List.Pairwise.sublist (filterMap_timestamps_sublist resp.chunk) hsorted
    have h3 := List.pairwise_map.mp h2
    show ((resp.chunk.filterMap processEvent).reverse).Pairwise
      (fun a b => a.timestamp ≤ b.timestamp)
    rw [List.pairwise_reverse]
    exact h3
  · intro m hm m2 hm2
    rcases mem_get_messages respOlder m hm with ⟨e, he, hpe⟩
    rcases mem_get_messages respNewer m2 hm2 with ⟨e2, he2, hpe2⟩
    rw [processEvent_timestamp e m hpe, processEvent_timestamp e2 m2 hpe2]
    exact hchain e he e2 he2

/-- Witness for C2 at a concrete pair of pages: a newest-first batch with
timestamps 20, 10 comes back sorted oldest-first, with an older page of
timestamp 5 below it. -/
theorem get_messages_ordered_witness :
    (get_messages ⟨[⟨TimelineEventKind.unableToDecrypt, some 20⟩,
        ⟨TimelineEventKind.unableToDecrypt, some 10⟩], some "t"⟩).messages.Pairwise
      (fun a b => a.timestamp ≤ b.timestamp) :=
  (get_messages_ordered
    ⟨[⟨TimelineEventKind.unableToDecrypt, some 20⟩,
      ⟨TimelineEventKind.unableToDecrypt, some 10⟩], some "t"⟩
    ⟨[⟨TimelineEventKind.unableToDecrypt, some 20⟩,
      ⟨TimelineEventKind.unableToDecrypt, some 10⟩], some "t"⟩
    ⟨[⟨TimelineEventKind.unableToDecrypt, some 5⟩], none⟩
    (by decide) (by decide)).2.1

/-- Claim C3 counterexample: a batch whose single raw entry is not an
original room message (a failed deserialization, a non-message event or a
redacted message) yields zero mapped messages, although that entry's
message sub-kind is not an unsupported one — so entries other than the
unsupported sub-kinds are dropped too, contradicting the claimed count. -/
theorem get_messages_count_counterexample :
    (get_messages ⟨[⟨TimelineEventKind.plainText EventPayload.nonMessage, some 5⟩],
        none⟩).messages.length
      ≠ ([(⟨TimelineEventKind.plainText EventPayload.nonMessage, some 5⟩ : TimelineEvent)].filter
          (fun e => ! isUnsupportedSubkind e)).length := by
  decide

/-- Claim C3 (amended): an undecryptable entry is always emitted as the
sentinel message (sender `"[Encrypted]"`, keys-pending body) and never
dropped; the number of returned messages equals the number of raw entries
kept by the classifier — the undecryptable ones and the original room
messages with a supported sub-kind — so an entry is dropped exactly when
it is not an original room message or its sub-kind is unsupported. -/
theorem get_messages_count (resp : RoomMessagesResponse) (ts : Option Nat) :
    processEvent ⟨TimelineEventKind.unableToDecrypt, ts⟩
      = some ⟨"[Encrypted]", "🔒 Waiting for encryption keys...", ts.getD 0⟩
    ∧ keepsEntry ⟨TimelineEventKind.unableToDecrypt, ts⟩ = true
    ∧ (get_messages resp).messages.length = (resp.chunk.filter keepsEntry).length := by
  refine ⟨rfl, rfl, ?_⟩
  show ((resp.chunk.filterMap processEvent).reverse).length = _
  rw [List.length_reverse, length_filterMap_processEvent]

/-- Claim C4 counterexample: with an active flow `"flow1"` and a failing
remote cancel, `cancel_verification` returns the error and leaves
`verification_flow_id` set — the flow id is not cleared when the remote
cancel call fails. -/
theorem cancel_verification_counterexample :
    (cancel_verification
        ⟨some ⟨"https://hs", "data/alice_hs"⟩, some "@alice:hs", [], "data", some "flow1"⟩
        ⟨true, false⟩).2 = Except.error "Failed to cancel: transport"
    ∧ (cancel_verification
        ⟨some ⟨"https://hs", "data/alice_hs"⟩, some "@alice:hs", [], "data", some "flow1"⟩
        ⟨true, false⟩).1.verification_flow_id ≠ none := by
  exact ⟨rfl, fun h => Option.noConfusion h⟩

/-- Claim C4 (amended): `cancel_verification` clears the active flow id
exactly on success — whenever it returns `Ok`, the flow id is `none`
afterwards; whenever any step fails (no client, no active flow, flow not
found, or the remote cancel call fails) the error is propagated and the
state, including the flow id, is left unchanged. -/
theorem cancel_verification_amended (st : MatrixState) (env : CancelEnv) :
    (∀ m, (cancel_verification st env).2 = Except.ok m →
      (cancel_verification st env).1.verification_flow_id = none)
    ∧ (∀ e, (cancel_verification st env).2 = Except.error e →
      (cancel_verification st env).1 = st) := by
  rcases st with ⟨client, uid, toks, dd, flow⟩
  rcases env with ⟨rf, rc⟩
  cases client <;> cases flow <;> cases rf <;> cases rc <;>
    refine ⟨fun m h => ?_, fun e h => ?_⟩ <;>
      first
        | rfl
        | simp [cancel_verification] at h

/-- Witness for C4's amended theorem: a successful cancel from a state
with flow `"flow1"` leaves no active flow id. -/
theorem cancel_verification_amended_witness :
    (cancel_verification
        ⟨some ⟨"https://hs", "data/alice_hs"⟩, some "@alice:hs", [], "data", some "flow1"⟩
        ⟨true, true⟩).1.verification_flow_id = none :=
  (cancel_verification_amended
      ⟨some ⟨"https://hs", "data/alice_hs"⟩, some "@alice:hs", [], "data", some "flow1"⟩
      ⟨true, true⟩).1 "Verification cancelled" rfl

/-- Claim C9 (code evaluated at the failing input): the options passed to
`room.messages` never depend on the command's `_limit` argument — calling
with limit 50 builds exactly the options built with limit 10, the limit
field stays at the SDK default, only direction and start token are set. -/
theorem get_messages_ignores_limit_argument :
    (∀ lim lim2 : Nat, ∀ tok : Option String,
      configure_options lim tok = configure_options lim2 tok)
    ∧ configure_options 50 none = configure_options 10 none
    ∧ (configure_options 50 none).limit = none
    ∧ (configure_options 50 (some "t1")).limit = none
    ∧ (configure_options 50 (some "t1")).from_token = some "t1"
    ∧ (configure_options 50 none).dir = Direction.backward := by
  refine ⟨?_, rfl, rfl, rfl, rfl, rfl⟩
  intro lim lim2 tok
  cases tok <;> rfl

/-- Claim C5 (the code at the failing input): with a logged-in session and
a failing remote invalidation, `logout` returns the error with the state
and the filesystem untouched — client, user id, flow id and storage all
survive; and even with a succeeding remote call the session directory is
not deleted, because the deletion step re-reads the user id after it was
already cleared. -/
theorem logout_code_bug :
    logout ⟨some ⟨"https://hs", "data/alice_hs"⟩, some "@alice:hs", [], "data", some "flow1"⟩
        ⟨["data/alice_hs"]⟩ ⟨false⟩
      = ((⟨some ⟨"https://hs", "data/alice_hs"⟩, some "@alice:hs", [], "data", some "flow1"⟩,
          ⟨["data/alice_hs"]⟩), Except.error "Logout failed: transport")
    ∧ (logout ⟨some ⟨"https://hs", "data/alice_hs"⟩, some "@alice:hs", [], "data", some "flow1"⟩
        ⟨["data/alice_hs"]⟩ ⟨true⟩).1.2 = ⟨["data/alice_hs"]⟩
    ∧ (logout ⟨some ⟨"https://hs", "data/alice_hs"⟩, some "@alice:hs", [], "data", some "flow1"⟩
        ⟨["data/alice_hs"]⟩ ⟨true⟩).1.1
      = ⟨none, none, [], "data", none⟩ := by
  exact ⟨rfl, rfl, rfl⟩

/-- Claim C6 counterexample: a login that fails at the connection step
(after validation and directory creation) returns the error while the
freshly created per-user storage directory is still on disk — the partial
directory is not removed before the error is returned. -/
theorem matrix_login_counterexample :
    (matrix_login ⟨none, none, [], "data", none⟩ ⟨[]⟩ "https://hs" "@alice:hs" "pw"
        ⟨true, true, false, true, "@alice:hs", "DEV", true⟩).2
      = Except.error "Failed to connect: transport"
    ∧ (matrix_login ⟨none, none, [], "data", none⟩ ⟨[]⟩ "https://hs" "@alice:hs" "pw"
        ⟨true, true, false, true, "@alice:hs", "DEV", true⟩).1.2.dirs
      = ["data/alice_hs"] := by
  exact ⟨rfl, rfl⟩

/-- Claim C6 (amended): whenever `matrix_login` fails — at validation,
directory preparation, connection, authentication or the initial sync —
the `MatrixState` is left exactly as it was, so no Session is installed;
the partially created storage directory, however, may remain on disk. -/
theorem matrix_login_fail_no_session (st : MatrixState) (fs : FileSystem)
    (homeserver username password : String) (env : LoginEnv) (e : String)
    (h : (matrix_login st fs homeserver username password env).2 = Except.error e) :
    (matrix_login st fs homeserver username password env).1.1 = st := by
  simp only [matrix_login] at h ⊢
  split_ifs at h ⊢ <;> rfl

/-- Witness for C6's amended theorem: the connection-failure run installs
no Session. -/
theorem matrix_login_fail_no_session_witness :
    (matrix_login ⟨none, none, [], "data", none⟩ ⟨[]⟩ "https://hs" "@alice:hs" "pw"
        ⟨true, true, false, true, "@alice:hs", "DEV", true⟩).1.1
      = ⟨none, none, [], "data", none⟩ :=
  matrix_login_fail_no_session ⟨none, none, [], "data", none⟩ ⟨[]⟩ "https://hs" "@alice:hs"
    "pw" ⟨true, true, false, true, "@alice:hs", "DEV", true⟩
    "Failed to connect: transport" rfl

/-- Claim C7: when the homeserver URL is empty after trimming, the
username is empty after trimming, the password is empty, or the homeserver
URL starts with neither `http://` nor `https://`, `matrix_login` returns
one of the two validation errors and leaves both the state and the
filesystem untouched — validation happens before any side effect. -/
theorem matrix_login_validates_first (st : MatrixState) (fs : FileSystem)
    (homeserver username password : String) (env : LoginEnv)
    (h : trim homeserver = "" ∨ trim username = "" ∨ password = ""
      ∨ (starts_with homeserver "http://" = false
          ∧ starts_with homeserver "https://" = false)) :
    (matrix_login st fs homeserver username password env).1 = (st, fs)
    ∧ ((matrix_login st fs homeserver username password env).2
        = Except.error "All fields are required"
      ∨ (matrix_login st fs homeserver username password env).2
        = Except.error "Homeserver URL must start with http:// or https://") := by
  unfold matrix_login
  split_ifs with h1 h2
  · exact ⟨rfl, Or.inl rfl⟩
  · exact ⟨rfl, Or.inr rfl⟩
  all_goals
    exfalso
    rcases h with h3 | h3 | h3 | ⟨ha, hb⟩
    · exact h1 (by simp [is_empty, h3])
    · exact h1 (by simp [is_empty, h3])
    · exact h1 (by simp [is_empty, h3])
    · exact h2 (by simp [ha, hb])

/-- Witness for C7 at the spec's scenario: login with an empty password
fails with the validation error and changes nothing. -/
theorem matrix_login_validates_first_witness :
    (matrix_login ⟨none, none, [], "data", none⟩ ⟨[]⟩ "https://hs" "@alice:hs" ""
        ⟨true, true, true, true, "@alice:hs", "DEV", true⟩).1
      = (⟨none, none, [], "data", none⟩, ⟨[]⟩) :=
  (matrix_login_validates_first ⟨none, none, [], "data", none⟩ ⟨[]⟩ "https://hs" "@alice:hs"
      "" ⟨true, true, true, true, "@alice:hs", "DEV", true⟩
      (Or.inr (Or.inr (Or.inl rfl)))).1

end MatrixClient
